import Mathlib

/-!
A verification development for the DExTer debugger-testing core:
the Visual Studio debugger driver (`dex/debugger/visualstudio/VisualStudio.py`),
the sandboxed runner subtool (`dex/tools/run_debugger_internal_/Tool.py`)
and the main entry point (`dex/tools/Main.py`), shallowly embedded in Lean.
External backend state (the COM/DTE object model) is passed in explicitly;
Python attribute access with defaults becomes `Option` fields.
-/

/-! ## String containment (Python `needle in hay` and `str.startswith`) -/

/-- Python list/string prefix test, on explicit character lists. -/
def isPrefixL : List Char → List Char → Bool
  | [], _ => true
  | _ :: _, [] => false
  | a :: as, b :: bs => decide (a = b) && isPrefixL as bs

/-- Python substring containment `needle in hay`, on character lists:
true iff the first list occurs contiguously inside the second. -/
def subList (n : List Char) : List Char → Bool
  | [] => n.isEmpty
  | c :: t => isPrefixL n (c :: t) || subList n t

/-- Python `needle in hay` on strings. -/
def strIn (needle hay : String) : Bool := subList needle.data hay.data

/-- Python `s.startswith(p)`. -/
def startswith (p s : String) : Bool := isPrefixL p.data s.data

/-! ## Trace IR data model

The IR record classes live in `dex/dextIR` which is referenced but not under
`src/`; the records are modelled from the spec (§3 data model) with the field
names the source uses (`LocIR(path=..., lineno=..., column=...)`,
`FrameIR(function=..., is_inlined=..., loc=...)`,
`StepIR(step_index=..., frames=..., stop_reason=...)`, `ValueIR(...)`). -/

/-- Modelled from the spec: stop-reason enumeration
`enum{BREAKPOINT, STEP, PROGRAM_EXIT, ERROR, ...}` (spec §3);
the source uses `StopReason.BREAKPOINT` and `StopReason.STEP`. -/
inductive StopReason where
  | BREAKPOINT
  | STEP
  | PROGRAM_EXIT
  | ERROR
deriving DecidableEq, Repr

/-- Modelled from the spec: a source Location; every field may be absent. -/
structure LocIR where
  path : Option String
  lineno : Option Nat
  column : Option Nat
deriving DecidableEq, Repr

/-- The all-absent Location, `LocIR(path=None, lineno=None, column=None)`. -/
def LocIR.empty : LocIR := ⟨none, none, none⟩

/-- Modelled from the spec: one call-stack entry. -/
structure FrameIR where
  function : Option String
  is_inlined : Bool
  loc : LocIR
deriving DecidableEq, Repr

/-- Modelled from the spec: one stepping event. -/
structure StepIR where
  step_index : Nat
  frames : List FrameIR
  stop_reason : StopReason
deriving DecidableEq, Repr

/-- Modelled from the spec: one expression-evaluation result. -/
structure ValueIR where
  expression : String
  value : String
  type : Option String
  error_string : Option String
  is_optimized_away : Bool
  could_evaluate : Bool
  is_irretrievable : Bool
deriving DecidableEq, Repr

/-- Modelled from the spec: the top-level Trace record (`DextIR`): an ordered
sequence of Steps plus debugger identity metadata, mutated in place by the
stepping engine. -/
structure DextIR where
  steps : List StepIR
  debugger : Option String
deriving DecidableEq, Repr

/-- Modelled from the spec: `DextIR.as_json` (in `dex/dextIR/DextIR.py`, not
under `src/`) serializes the Trace to a self-describing text form; the spec
fixes no concrete syntax, so the model only provides a deterministic,
non-empty stand-in encoding. -/
def DextIR.as_json (t : DextIR) : String :=
  "DextIR with " ++ toString t.steps.length ++ " steps; debugger "
    ++ toString (repr t.debugger)

namespace VisualStudio

/-! ## VisualStudio driver (`dex/debugger/visualstudio/VisualStudio.py`)

Backend state queried through the DTE automation interface is made explicit:
the last-hit breakpoint (whose `File`/`FileLine`/`FileColumn` attributes may
be absent, hence `getattr(bp, ..., None)` in the source), the current
thread's stack frame list, and the driver's running step index. -/

/-- The DTE `Debugger.BreakpointLastHit` object: each attribute may be
missing (`getattr` with `None` default in `_location`). -/
structure VSBreakpoint where
  File : Option String
  FileLine : Option Nat
  FileColumn : Option Nat
deriving DecidableEq, Repr

/-- A raw DTE stack frame, as enumerated from `CurrentThread.StackFrames`. -/
structure VSFrame where
  FunctionName : String
deriving DecidableEq, Repr

/-- The backend state `get_step_info` queries. -/
structure VSState where
  BreakpointLastHit : Option VSBreakpoint
  StackFrames : List VSFrame
  step_index : Nat
deriving DecidableEq, Repr

/-- `VisualStudio._location`: the Location of the last-hit breakpoint; all
fields absent when there is no last-hit breakpoint or the attribute is
missing. -/
def location (s : VSState) : LocIR :=
  match s.BreakpointLastHit with
  | none => ⟨none, none, none⟩
  | some bp => ⟨bp.File, bp.FileLine, bp.FileColumn⟩

/-- `VisualStudio.frames_below_main`: the fixed runtime-startup name set. -/
def frames_below_main : List String :=
  ["[Inline Frame] invoke_main", "__scrt_common_main_seh",
   "__tmainCRTStartup", "mainCRTStartup"]

/-- One `FrameIR` as built inside the `get_step_info` loop, before location
patching.  `san` is `DebuggerBase._sanitize_function_name` (defined outside
`src/`), kept as an explicit parameter so every result holds for any
sanitizer. -/
def mkFrame (san : String → Option String) (sf : VSFrame) : FrameIR :=
  { function := san sf.FunctionName
    is_inlined := startswith "[Inline Frame]" sf.FunctionName
    loc := LocIR.empty }

/-- The `any(name in fname for name in self.frames_below_main)` test on
`fname = frame.function or ''`. -/
def isBelowMain (f : Option String) : Bool :=
  frames_below_main.any fun name => strIn name (f.getD "")

/-- The frame-collection loop of `get_step_info`: walk the stack innermost
outward, `break` at the first frame whose (sanitized) name matches the
runtime-startup set, append the rest. -/
def collectFrames (san : String → Option String) : List VSFrame → List FrameIR
  | [] => []
  | sf :: rest =>
    let frame := mkFrame san sf
    if isBelowMain frame.function then []
    else frame :: collectFrames san rest

/-- `frames[0].loc = loc` when `frames` is non-empty. -/
def patchHeadLoc (loc : LocIR) : List FrameIR → List FrameIR
  | [] => []
  | f :: rest => { f with loc := loc } :: rest

/-- `VisualStudio.get_step_info`. -/
def get_step_info (san : String → Option String) (s : VSState) : StepIR :=
  let frames := collectFrames san s.StackFrames
  let loc := location s
  let frames := patchHeadLoc loc frames
  let reason := StopReason.BREAKPOINT
  let reason := if loc.path = none then StopReason.STEP else reason
  { step_index := s.step_index, frames := frames, stop_reason := reason }

/-- The DTE `Debugger.GetExpression` result object.  The source attribute
`Type` is a Lean keyword, so it is spelled `TypeText` here. -/
structure VSExprResult where
  Value : String
  TypeText : String
  IsValidValue : Bool
deriving DecidableEq, Repr

/-- The optimized-away sentinel texts of `evaluate_expression`. -/
def optimizedSentinels : List String :=
  ["Variable is optimized away and not available",
   "Value is not available, possibly due to optimization"]

/-- The irretrievable sentinel texts of `evaluate_expression`. -/
def irretrievableSentinels : List String :=
  ["???", "<Unable to read memory>"]

/-- `VisualStudio.evaluate_expression`, over the backend's reported
evaluation result. -/
def evaluate_expression (expression : String) (result : VSExprResult) :
    ValueIR :=
  let value := result.Value
  let is_optimized_away := optimizedSentinels.any fun s => strIn s value
  let is_irretrievable := irretrievableSentinels.any fun s => strIn s value
  let could_evaluate :=
    result.IsValidValue || is_optimized_away || is_irretrievable
  { expression := expression
    value := value
    type := some result.TypeText
    error_string := none
    is_optimized_away := is_optimized_away
    could_evaluate := could_evaluate
    is_irretrievable := is_irretrievable }

/-- Modelled from the spec: the DTE `Debugger.Breakpoints` collection lives
behind the COM wrapper (`dex/debugger/visualstudio/windows/ComInterface`,
referenced but not under `src/`).  The spec describes the state as "the
backend's breakpoint set" of (path, line) positions, so the model is a
duplicate-free list of such pairs. -/
structure Breakpoints where
  bps : List (String × Nat)
deriving DecidableEq, Repr

/-- `VisualStudio.add_breakpoint(file_, line)`:
`Breakpoints.Add('', file_, line)` on the backend's breakpoint set. -/
def add_breakpoint (s : Breakpoints) (file_ : String) (line : Nat) :
    Breakpoints :=
  if (file_, line) ∈ s.bps then s else ⟨s.bps ++ [(file_, line)]⟩

/-- `VisualStudio.clear_breakpoints()`: delete every breakpoint in the
collection, leaving it empty. -/
def clear_breakpoints (_ : Breakpoints) : Breakpoints := ⟨[]⟩

/-- The backend's stepping behaviour: `_custom_init` binds
`self._fn_step = self._debugger.StepInto` and `self._fn_go =
self._debugger.Go`; the backend effect of each DTE call on driver state `σ`
is kept abstract. -/
structure Backend (σ : Type) where
  StepInto : σ → σ
  Go : σ → σ

/-- `VisualStudio.step()`: `self._fn_step()`. -/
def step {σ : Type} (b : Backend σ) (s : σ) : σ := b.StepInto s

/-- `VisualStudio.go()`: `self._fn_go()`. -/
def go {σ : Type} (b : Backend σ) (s : σ) : σ := b.Go s

/-- `VisualStudio.launch()`: the body is exactly `self.step()`. -/
def launch {σ : Type} (b : Backend σ) (s : σ) : σ := step b s

end VisualStudio

namespace SandboxTool

/-! ## Sandbox runner subtool (`dex/tools/run_debugger_internal_/Tool.py`)
and the surrounding error handling of `dex/tools/Main.py`. -/

/-- The command-line/pickled options object.  The fields are the ones the
two tools under `src/` read or write (`working_directory`, `lint`,
`unittest`, `json`, `time_report`, `debugger`, `verbose`) plus the
backend-configuration fields the driver reads (`executable`,
`show_debugger`). -/
structure Options where
  working_directory : String
  lint : String
  unittest : String
  json : String
  time_report : Bool
  debugger : String
  verbose : Bool
  executable : String
  show_debugger : Bool
deriving DecidableEq, Repr

/-- `Tool.handle_options`, option-merging part: deserialize the pickled
options and override `working_directory`, `lint`, `unittest` and `json`
with the live options' values (`working_directory[:]` copies the value),
then install the merged object as the working configuration. -/
def handle_options (live poptions : Options) : Options :=
  { poptions with
    working_directory := live.working_directory
    lint := live.lint
    unittest := live.unittest
    json := live.json }

/-- The outcome of `debugger.start()` (the stepping engine,
`DebuggerBase.start`, defined outside `src/`): it mutates
`context.dextIR` in place and either returns normally or raises a
`DebuggerException` carrying a message; either way the trace reflects the
steps appended so far.  Modelled from the spec (§4.2): the engine appends
Steps until FINISHED or a driver-operation failure. -/
inductive StartOutcome where
  | ok (trace : DextIR)
  | raises (msg : String) (trace : DextIR)
deriving DecidableEq, Repr

/-- The loaded debugger driver as `Tool.go` observes it.  Modelled from the
spec (§4.1) for the parts outside `src/` (`Debuggers.load`,
`DebuggerBase`): a load failure is captured, never thrown, and surfaces as
`is_available = False` with the original diagnostic in `loading_error` and
a captured trace in `loading_error_trace`. -/
structure Debugger where
  name : String
  is_available : Bool
  loading_error : String
  loading_error_trace : List String
  debugger_info : String
  start_outcome : StartOutcome
deriving DecidableEq, Repr

/-- The state `Tool.go` runs in: the working configuration, the in-memory
trace, the loaded driver, and the contents of the trace (json) file on
disk. -/
structure ToolState where
  options : Options
  dextIR : DextIR
  debugger : Debugger
  trace_file : String
deriving DecidableEq, Repr

/-- The result of running `Tool.go`: either a normal return or a raised
`Error` carrying a message, next to the final state, plus whether
`debugger.start()` (the stepping engine) was invoked. -/
inductive GoOutcome where
  | ok
  | error (msg : String)
deriving DecidableEq, Repr

/-- Python `sep.join(parts)`. -/
def strJoin (sep : String) : List String → String
  | [] => ""
  | [x] => x
  | x :: xs => x ++ sep ++ strJoin sep xs

/-- The `Error` message built when the debugger is unavailable:
`'<d>could not load {}</> ({})\n'.format(debugger.name,
debugger.loading_error)`, extended with the indented loading-error trace
when `options.verbose`. -/
def loadFailureMsg (verbose : Bool) (d : Debugger) : String :=
  let msg := "<d>could not load " ++ d.name ++ "</> (" ++ d.loading_error
    ++ ")\n"
  if verbose then msg ++ "\n    " ++ strJoin "    " d.loading_error_trace
  else msg

/-- `Tool.go`: record the driver identity on the trace; if the driver is
unavailable raise an `Error` with the load diagnostic (the stepping engine
never runs and the trace file is untouched); otherwise run
`debugger.start()`, converting a `DebuggerException` into a raised `Error`
(which propagates, skipping the final write); only on normal completion
write `dextIR.as_json` to the json file. -/
def toolGo (st : ToolState) : GoOutcome × ToolState × Bool :=
  let st := { st with
    dextIR := { st.dextIR with debugger := some st.debugger.debugger_info } }
  if st.debugger.is_available = false then
    (GoOutcome.error (loadFailureMsg st.options.verbose st.debugger),
     st, false)
  else
    match st.debugger.start_outcome with
    | StartOutcome.ok tr =>
      let st := { st with dextIR := tr }
      (GoOutcome.ok, { st with trace_file := st.dextIR.as_json }, true)
    | StartOutcome.raises m tr =>
      (GoOutcome.error m, { st with dextIR := tr }, true)

/-- The `except Error` handler of `Main.main`: a raised `Error` is printed
as `'\nerror: {}\n'.format(str(e))` and the process returns exit code 1;
a normal completion returns exit code 0 with no error output. -/
def mainRun (st : ToolState) : Nat × Option String × ToolState × Bool :=
  match toolGo st with
  | (GoOutcome.ok, st, ran) => (0, none, st, ran)
  | (GoOutcome.error m, st, ran) =>
    (1, some ("\nerror: " ++ m ++ "\n"), st, ran)

end SandboxTool

/-! ## Concrete states used to exercise the model -/

/-- An identity sanitizer: `DebuggerBase._sanitize_function_name` leaves the
backend's name unchanged. -/
def sanId : String → Option String := fun n => some n

/-- A stop with no last-hit breakpoint. -/
def stepState : VisualStudio.VSState :=
  { BreakpointLastHit := none
    StackFrames := [⟨"foo"⟩, ⟨"bar"⟩]
    step_index := 0 }

/-- A stop at a breakpoint with a full source location. -/
def bpState : VisualStudio.VSState :=
  { BreakpointLastHit := some ⟨some "a.cpp", some 10, some 2⟩
    StackFrames := [⟨"foo"⟩, ⟨"bar"⟩]
    step_index := 3 }

/-- The spec's worked example stack
`[foo, bar, mainCRTStartup, __tmainCRTStartup]`. -/
def startupStackState : VisualStudio.VSState :=
  { BreakpointLastHit := some ⟨some "a.cpp", some 10, some 2⟩
    StackFrames := [⟨"foo"⟩, ⟨"bar"⟩, ⟨"mainCRTStartup"⟩,
                    ⟨"__tmainCRTStartup"⟩]
    step_index := 0 }

/-! ## Substring lemmas -/

theorem subList_nil_left (h : List Char) : subList [] h = true := by
  induction h with
  | nil => rfl
  | cons c t ih => simp [subList, isPrefixL]

theorem isPrefixL_self_append (n t : List Char) :
    isPrefixL n (n ++ t) = true := by
  induction n with
  | nil => rfl
  | cons a as ih => simp [isPrefixL, ih]

theorem subList_self_append (n b : List Char) : subList n (n ++ b) = true := by
  cases hnb : n ++ b with
  | nil =>
    rcases List.append_eq_nil.mp hnb with ⟨h1, _⟩
    subst h1; rfl
  | cons c t =>
    show (isPrefixL n (c :: t) || subList n t) = true
    rw [← hnb, isPrefixL_self_append]
    rfl

theorem subList_cons (c : Char) {n t : List Char}
    (h : subList n t = true) : subList n (c :: t) = true := by
  show (isPrefixL n (c :: t) || subList n t) = true
  rw [h]
  simp

theorem subList_append_left (a : List Char) {n t : List Char}
    (h : subList n t = true) : subList n (a ++ t) = true := by
  induction a with
  | nil => exact h
  | cons c cs ih => exact subList_cons c ih

theorem data_append (a b : String) : (a ++ b).data = a.data ++ b.data := rfl

/-! ## Frame collection lemmas -/

theorem collectFrames_eq_takeWhile (san : String → Option String)
    (l : List VisualStudio.VSFrame) :
    VisualStudio.collectFrames san l
      = (l.takeWhile fun sf =>
          !VisualStudio.isBelowMain (san sf.FunctionName)).map
            (VisualStudio.mkFrame san) := by
  induction l with
  | nil => rfl
  | cons sf rest ih =>
    by_cases h : VisualStudio.isBelowMain (san sf.FunctionName) = true
    · simp [VisualStudio.collectFrames, VisualStudio.mkFrame, h,
        List.takeWhile_cons]
    · simp [VisualStudio.collectFrames, VisualStudio.mkFrame, h,
        List.takeWhile_cons, ih]

theorem patchHeadLoc_map_function (loc : LocIR) (l : List FrameIR) :
    (VisualStudio.patchHeadLoc loc l).map (fun f => f.function)
      = l.map (fun f => f.function) := by
  cases l <;> rfl

theorem collectFrames_loc_empty (san : String → Option String)
    (l : List VisualStudio.VSFrame) :
    ∀ f ∈ VisualStudio.collectFrames san l, f.loc = LocIR.empty := by
  induction l with
  | nil => intro f hf; simp [VisualStudio.collectFrames] at hf
  | cons sf rest ih =>
    intro f hf
    simp only [VisualStudio.collectFrames] at hf
    split at hf
    · simp at hf
    · rcases List.mem_cons.mp hf with h | h
      · subst h; rfl
      · exact ih f h

/-! ## Claims about `get_step_info` -/

/-- Claim C1: for every Step returned by `get_step_info`, a queried Location
with no path yields `stop_reason = STEP`, and a queried Location with a
path yields `stop_reason = BREAKPOINT`. -/
theorem claim_C1_stop_reason (san : String → Option String)
    (s : VisualStudio.VSState) :
    ((VisualStudio.location s).path = none →
      (VisualStudio.get_step_info san s).stop_reason = StopReason.STEP) ∧
    (∀ p : String, (VisualStudio.location s).path = some p →
      (VisualStudio.get_step_info san s).stop_reason
        = StopReason.BREAKPOINT) := by
  constructor
  · intro h
    simp [VisualStudio.get_step_info, h]
  · intro p h
    simp [VisualStudio.get_step_info, h]

/-- Witness for C1: a stop with no last-hit breakpoint classifies as STEP. -/
theorem claim_C1_stop_reason_witness :
    (VisualStudio.get_step_info sanId stepState).stop_reason
      = StopReason.STEP :=
  (claim_C1_stop_reason sanId stepState).1 rfl

/-- Claim C2: the frames retained by `get_step_info` are exactly the
innermost prefix of the backend's stack ending just before the first frame
whose function name matches an entry of `frames_below_main`; in
particular, the stack `[foo, bar, mainCRTStartup, __tmainCRTStartup]`
retains exactly `[foo, bar]`. -/
theorem claim_C2_frames_below_main_trimming (san : String → Option String)
    (s : VisualStudio.VSState) :
    ((VisualStudio.get_step_info san s).frames.map (fun f => f.function)
      = (s.StackFrames.takeWhile fun sf =>
          !VisualStudio.isBelowMain (san sf.FunctionName)).map
            (fun sf => san sf.FunctionName)) ∧
    ((VisualStudio.get_step_info sanId startupStackState).frames.map
        (fun f => f.function) = [some "foo", some "bar"]) := by
  constructor
  · show (VisualStudio.patchHeadLoc _
        (VisualStudio.collectFrames san s.StackFrames)).map _ = _
    rw [patchHeadLoc_map_function, collectFrames_eq_takeWhile]
    simp [List.map_map, Function.comp, VisualStudio.mkFrame]
  · decide

/-- Claim C6: in a Step with a non-empty frame sequence, the innermost
frame carries the Location queried from the last-hit breakpoint and every
other retained frame carries the all-absent Location. -/
theorem claim_C6_innermost_location (san : String → Option String)
    (s : VisualStudio.VSState)
    (h : (VisualStudio.get_step_info san s).frames ≠ []) :
    ((VisualStudio.get_step_info san s).frames.head?.map (fun f => f.loc)
      = some (VisualStudio.location s)) ∧
    (∀ f ∈ (VisualStudio.get_step_info san s).frames.tail,
      f.loc = LocIR.empty) := by
  have hall := collectFrames_loc_empty san s.StackFrames
  cases heq : VisualStudio.collectFrames san s.StackFrames with
  | nil =>
    exfalso
    apply h
    simp [VisualStudio.get_step_info, heq, VisualStudio.patchHeadLoc]
  | cons f rest =>
    constructor
    · simp [VisualStudio.get_step_info, heq, VisualStudio.patchHeadLoc]
    · intro g hg
      simp only [VisualStudio.get_step_info, heq,
        VisualStudio.patchHeadLoc, List.tail_cons] at hg
      exact hall g (heq ▸ List.mem_cons_of_mem f hg)

/-- Witness for C6: at a concrete breakpoint stop, the innermost frame's
location is the queried breakpoint location. -/
theorem claim_C6_innermost_location_witness :
    (VisualStudio.get_step_info sanId bpState).frames.head?.map
        (fun f => f.loc)
      = some (VisualStudio.location bpState) :=
  (claim_C6_innermost_location sanId bpState (by decide)).1

/-! ## Claims about `evaluate_expression` -/

/-- A backend value text carrying an optimized-away sentinel and, appended,
the `???` irretrievable sentinel. -/
def bothSentinelsResult : VisualStudio.VSExprResult :=
  ⟨"Variable is optimized away and not available???", "int", false⟩

/-- A backend value text that is exactly an optimized-away sentinel. -/
def optOnlyResult : VisualStudio.VSExprResult :=
  ⟨"Variable is optimized away and not available", "int", false⟩

/-- A backend value text that is exactly the `???` irretrievable sentinel. -/
def irrOnlyResult : VisualStudio.VSExprResult :=
  ⟨"???", "int", false⟩

/-- Counterexample to C3: a raw value text can contain an optimized-away
sentinel and still get `is_irretrievable = true`, because the flags are
computed independently; here the value also contains `???`. -/
theorem claim_C3_counterexample :
    ((VisualStudio.optimizedSentinels.any fun s =>
        strIn s (VisualStudio.evaluate_expression "x"
          bothSentinelsResult).value) = true) ∧
    (VisualStudio.evaluate_expression "x"
        bothSentinelsResult).is_irretrievable = true := by
  decide

/-- Claim C3 as amended: when the raw value text contains an optimized-away
sentinel, `could_evaluate = true` and `is_optimized_away = true`; and
`is_irretrievable = false` additionally holds when the text contains no
irretrievable sentinel. -/
theorem claim_C3_optimized_away (e : String)
    (r : VisualStudio.VSExprResult)
    (hopt : (VisualStudio.optimizedSentinels.any
      fun s => strIn s r.Value) = true) :
    (VisualStudio.evaluate_expression e r).could_evaluate = true ∧
    (VisualStudio.evaluate_expression e r).is_optimized_away = true ∧
    ((VisualStudio.irretrievableSentinels.any
        fun s => strIn s r.Value) = false →
      (VisualStudio.evaluate_expression e r).is_irretrievable = false) := by
  refine ⟨?_, ?_, ?_⟩
  · simp [VisualStudio.evaluate_expression, hopt]
  · simp [VisualStudio.evaluate_expression, hopt]
  · intro hirr
    simp [VisualStudio.evaluate_expression, hirr]

/-- Witness for the amended C3: evaluated on an exact optimized-away
sentinel text, the optimized-away flag is set. -/
theorem claim_C3_optimized_away_witness :
    (VisualStudio.evaluate_expression "x" optOnlyResult).is_optimized_away
      = true :=
  (claim_C3_optimized_away "x" optOnlyResult (by decide)).2.1

/-- Claim C10: an EvaluatedExpression marked optimized-away or
irretrievable is always marked evaluable, and the error text is always
absent. -/
theorem claim_C10_flag_invariant (e : String)
    (r : VisualStudio.VSExprResult) :
    (((VisualStudio.evaluate_expression e r).is_optimized_away = true ∨
      (VisualStudio.evaluate_expression e r).is_irretrievable = true) →
      (VisualStudio.evaluate_expression e r).could_evaluate = true) ∧
    (VisualStudio.evaluate_expression e r).error_string = none := by
  constructor
  · intro h
    simp only [VisualStudio.evaluate_expression] at h ⊢
    rcases h with h | h <;> simp [h]
  · rfl

/-- Witness for C10: an irretrievable-only value still counts as
evaluable. -/
theorem claim_C10_flag_invariant_witness :
    (VisualStudio.evaluate_expression "y" irrOnlyResult).could_evaluate
      = true :=
  (claim_C10_flag_invariant "y" irrOnlyResult).1 (Or.inr (by decide))

/-! ## Claims about breakpoints and driver actions -/

/-- Claim C7: adding a breakpoint that already exists leaves the breakpoint
set unchanged, and clearing an empty breakpoint set is a no-op; neither is
an error. -/
theorem claim_C7_breakpoints_idempotent (s : VisualStudio.Breakpoints)
    (file_ : String) (line : Nat) (h : (file_, line) ∈ s.bps) :
    VisualStudio.add_breakpoint s file_ line = s ∧
    VisualStudio.clear_breakpoints ⟨[]⟩ = (⟨[]⟩ : VisualStudio.Breakpoints)
      := by
  constructor
  · simp [VisualStudio.add_breakpoint, h]
  · rfl

/-- Witness for C7: re-adding an existing breakpoint at `a.cpp:3`. -/
theorem claim_C7_breakpoints_idempotent_witness :
    VisualStudio.add_breakpoint ⟨[("a.cpp", 3)]⟩ "a.cpp" 3
      = (⟨[("a.cpp", 3)]⟩ : VisualStudio.Breakpoints) :=
  (claim_C7_breakpoints_idempotent ⟨[("a.cpp", 3)]⟩ "a.cpp" 3
    (by decide)).1

/-- Claim C9: `launch()` has exactly the backend effect and resulting state
of a single `step()`, for every backend and every driver state. -/
theorem claim_C9_launch_is_initial_step {σ : Type}
    (b : VisualStudio.Backend σ) (s : σ) :
    VisualStudio.launch b s = VisualStudio.step b s := rfl

/-! ## Claims about the sandbox subtool -/

/-- Claim C8: the child's merged configuration takes exactly
working-directory, lint, unittest and the json trace path from the
parent's live options, and every other field from the deserialized
snapshot. -/
theorem claim_C8_option_merge (live poptions : SandboxTool.Options) :
    (SandboxTool.handle_options live poptions).working_directory
        = live.working_directory ∧
    (SandboxTool.handle_options live poptions).lint = live.lint ∧
    (SandboxTool.handle_options live poptions).unittest = live.unittest ∧
    (SandboxTool.handle_options live poptions).json = live.json ∧
    (SandboxTool.handle_options live poptions).time_report
        = poptions.time_report ∧
    (SandboxTool.handle_options live poptions).debugger
        = poptions.debugger ∧
    (SandboxTool.handle_options live poptions).verbose = poptions.verbose ∧
    (SandboxTool.handle_options live poptions).executable
        = poptions.executable ∧
    (SandboxTool.handle_options live poptions).show_debugger
        = poptions.show_debugger :=
  ⟨rfl, rfl, rfl, rfl, rfl, rfl, rfl, rfl, rfl⟩

/-- A concrete working configuration for the sandbox child. -/
def defaultOptions : SandboxTool.Options :=
  { working_directory := "wd"
    lint := "off"
    unittest := "off"
    json := "trace.json"
    time_report := false
    debugger := "vs2017"
    verbose := false
    executable := "a.exe"
    show_debugger := false }

/-- The trace built by two successful stepping events before a mid-run
failure: step indices 0 and 1. -/
def twoStepTrace : DextIR :=
  { steps :=
      [{ step_index := 0, frames := [], stop_reason := StopReason.BREAKPOINT },
       { step_index := 1, frames := [], stop_reason := StopReason.BREAKPOINT }]
    debugger := some "vs2017" }

/-- A driver that loads, then raises a `DebuggerException` during
`start()` after the two Steps of `twoStepTrace` were appended. -/
def midRunFailureDebugger : SandboxTool.Debugger :=
  { name := "vs2017"
    is_available := true
    loading_error := ""
    loading_error_trace := []
    debugger_info := "vs2017"
    start_outcome := SandboxTool.StartOutcome.raises "step failed"
      twoStepTrace }

/-- The sandbox child just before `Tool.go`, with the trace file holding
its pre-run contents. -/
def midRunFailureState : SandboxTool.ToolState :=
  { options := defaultOptions
    dextIR := { steps := [], debugger := none }
    debugger := midRunFailureDebugger
    trace_file := "PRE-RUN" }

/-- A driver whose load failed: `is_available` is false and the original
diagnostic is captured. -/
def unavailableDebugger : SandboxTool.Debugger :=
  { name := "vs2017"
    is_available := false
    loading_error := "COM attach refused"
    loading_error_trace := ["frame one", "frame two"]
    debugger_info := ""
    start_outcome := SandboxTool.StartOutcome.ok
      { steps := [], debugger := none } }

/-- The sandbox child just before `Tool.go` when the driver load failed. -/
def loadFailureState : SandboxTool.ToolState :=
  { options := defaultOptions
    dextIR := { steps := [], debugger := none }
    debugger := unavailableDebugger
    trace_file := "PRE-RUN" }

/-- Counterexample to C4: when `debugger.start()` raises after two Steps,
`Tool.go` raises an `Error` before reaching the trace-file write, so the
file keeps its pre-run contents and never receives the serialized partial
trace (which does live in memory, with step indices 0 and 1). -/
theorem claim_C4_counterexample :
    (SandboxTool.toolGo midRunFailureState).1
        = SandboxTool.GoOutcome.error "step failed" ∧
    (SandboxTool.toolGo midRunFailureState).2.1.dextIR = twoStepTrace ∧
    (SandboxTool.toolGo midRunFailureState).2.1.trace_file = "PRE-RUN" ∧
    (SandboxTool.toolGo midRunFailureState).2.1.trace_file
      ≠ (SandboxTool.toolGo midRunFailureState).2.1.dextIR.as_json := by
  refine ⟨rfl, rfl, rfl, ?_⟩
  decide

/-- Claim C4 as amended: when a Driver operation raises a
`DebuggerException` mid-run, the Sandbox Runner raises a fatal `Error`
carrying the exception message and exits without writing the Trace file;
the partial Trace (exactly the Steps completed before the failure) is
retained only in memory and the Trace file keeps its pre-run contents. -/
theorem claim_C4_midrun_failure (st : SandboxTool.ToolState) (m : String)
    (tr : DextIR)
    (hav : st.debugger.is_available = true)
    (hout : st.debugger.start_outcome
      = SandboxTool.StartOutcome.raises m tr) :
    (SandboxTool.toolGo st).1 = SandboxTool.GoOutcome.error m ∧
    (SandboxTool.toolGo st).2.1.trace_file = st.trace_file ∧
    (SandboxTool.toolGo st).2.1.dextIR = tr ∧
    (SandboxTool.toolGo st).2.2 = true := by
  simp [SandboxTool.toolGo, hav, hout]

/-- Witness for the amended C4: the concrete mid-run failure leaves the
trace file at its pre-run contents. -/
theorem claim_C4_midrun_failure_witness :
    (SandboxTool.toolGo midRunFailureState).2.1.trace_file
      = midRunFailureState.trace_file :=
  (claim_C4_midrun_failure midRunFailureState "step failed" twoStepTrace
    rfl rfl).2.1

/-- Claim C5: when the driver fails to load (reports itself unavailable),
the run exits with a non-zero code, the stepping engine never runs, the
trace file keeps its pre-run contents, and the surfaced error message
contains the original load diagnostic. -/
theorem claim_C5_load_failure (st : SandboxTool.ToolState)
    (h : st.debugger.is_available = false) :
    (SandboxTool.mainRun st).1 ≠ 0 ∧
    (SandboxTool.mainRun st).2.2.2 = false ∧
    (SandboxTool.mainRun st).2.2.1.trace_file = st.trace_file ∧
    (∃ m : String, (SandboxTool.mainRun st).2.1 = some m ∧
      strIn st.debugger.loading_error m = true) := by
  refine ⟨?_, ?_, ?_, ?_⟩
  · simp [SandboxTool.mainRun, SandboxTool.toolGo, h]
  · simp [SandboxTool.mainRun, SandboxTool.toolGo, h]
  · simp [SandboxTool.mainRun, SandboxTool.toolGo, h]
  · refine ⟨"\nerror: "
      ++ SandboxTool.loadFailureMsg st.options.verbose st.debugger
      ++ "\n", ?_, ?_⟩
    · simp [SandboxTool.mainRun, SandboxTool.toolGo, h]
    · cases hv : st.options.verbose with
      | false =>
        simp [SandboxTool.loadFailureMsg, hv, strIn, data_append,
          List.append_assoc]
        repeat
          first
          | exact subList_self_append _ _
          | apply subList_append_left
          | apply subList_cons
      | true =>
        simp [SandboxTool.loadFailureMsg, hv, strIn, data_append,
          List.append_assoc]
        repeat
          first
          | exact subList_self_append _ _
          | apply subList_append_left
          | apply subList_cons

/-- Witness for C5: a concrete refused COM attach exits non-zero. -/
theorem claim_C5_load_failure_witness :
    (SandboxTool.mainRun loadFailureState).1 ≠ 0 :=
  (claim_C5_load_failure loadFailureState rfl).1
